import Mathlib

/-!
Verification of `nion/ui/Window.py` (nionui): a shallow embedding of the
`Window` document-window controller and of the two task containers it drains
on each periodic tick, together with theorems checking the natural-language
specification against the code.

Tasks are modelled as opaque natural numbers; `0` models a Python-falsy task
(`None`), so the `assert task` guards in `queue_task` / `add_task` become
`Option`-valued operations that fail on `0`.
-/

namespace NionUI

/-- An opaque task callable. `0` models a falsy value (`None`). -/
abbrev Task := Nat

/-- Modelled from the spec: `nion.utils.Process.TaskQueue` is not under `src/`;
the spec and the source comment (Window.py lines 237-240) describe it as a FIFO
queue whose queued tasks "are guaranteed to be executed in the order queued".
State: the list of pending tasks, oldest first. -/
structure TaskQueue where
  tasks : List Task
deriving Repr, DecidableEq

/-- Modelled from the spec: `TaskQueue.put` appends a task at the back (FIFO). -/
def TaskQueue.put (q : TaskQueue) (t : Task) : TaskQueue :=
  ⟨q.tasks ++ [t]⟩

/-- Modelled from the spec: `TaskQueue.perform_tasks` runs every pending task in
queue order and leaves the queue empty. Returns the executed tasks in
execution order together with the drained queue. -/
def TaskQueue.perform_tasks (q : TaskQueue) : List Task × TaskQueue :=
  (q.tasks, ⟨[]⟩)

/-- Modelled from the spec: `nion.utils.Process.TaskSet` is not under `src/`;
the spec describes it as a keyed task set with "dedup-by-key replace-before-run
semantics", and the source comment (Window.py lines 237-240) says added tasks
"are only executed if not replaced before execution". State: an association
list from keys to tasks, one binding per key. -/
structure TaskSet where
  tasks : List (String × Task)
deriving Repr, DecidableEq

/-- Replace the binding for `key` in an association list, or append one. -/
def updateAssoc (key : String) (t : Task) : List (String × Task) → List (String × Task)
  | [] => [(key, t)]
  | (k, t') :: rest =>
      if k = key then (key, t) :: rest else (k, t') :: updateAssoc key t rest

/-- Modelled from the spec: `TaskSet.add_task` stores `t` under `key`,
replacing any task previously stored under the same key. -/
def TaskSet.add_task (s : TaskSet) (key : String) (t : Task) : TaskSet :=
  ⟨updateAssoc key t s.tasks⟩

/-- Modelled from the spec: `TaskSet.clear_task` removes the binding for `key`,
if any. -/
def TaskSet.clear_task (s : TaskSet) (key : String) : TaskSet :=
  ⟨s.tasks.filter (fun p => p.1 ≠ key)⟩

/-- Modelled from the spec: `TaskSet.perform_tasks` runs each currently stored
task once and leaves the set empty. Returns the executed tasks and the drained
set. -/
def TaskSet.perform_tasks (s : TaskSet) : List Task × TaskSet :=
  (s.tasks.map Prod.snd, ⟨[]⟩)

/-- The task currently stored under `key`, if any. -/
def TaskSet.lookup (s : TaskSet) (key : String) : Option Task :=
  (s.tasks.find? (fun p => p.1 = key)).map Prod.snd

/-- An outstanding `asyncio` task on the window's event loop: `finishes` says
whether the coroutine completes in finite time. -/
structure AsyncTask where
  finishes : Bool
deriving Repr, DecidableEq

/-- The window's private `asyncio` event loop: its set of outstanding tasks. -/
structure EventLoop where
  tasks : List AsyncTask
deriving Repr, DecidableEq

/-- State of the wrapped platform document window (the `__document_window`
object returned by `ui.create_document_window()`). -/
structure DocWindow where
  title : String
  visible : Bool
  closeRequested : Bool
  attached : Option Nat
  geometry : String
  winState : String
deriving Repr, DecidableEq

/-- State of a `Window` instance (`Window.__init__`, Window.py lines 22-47):
the wrapped document window, the persistent id, the `__shown` flag (initially
false), the periodic queue and set (initially empty), the event loop, the
Python object identity `id(self)`, and the `ui` persistent-string store. -/
structure WindowState where
  documentWindow : DocWindow
  persistent_id : Option String
  shown : Bool
  periodic_queue : TaskQueue
  periodic_set : TaskSet
  eventLoop : EventLoop
  windowId : Nat
  uiStore : List (String × String)
deriving Repr, DecidableEq

namespace WindowState

/-- `Window.__init__` (lines 22-47) as far as the per-instance mutable state is
concerned: `__shown = False`, fresh empty `TaskQueue` and `TaskSet`, a new
event loop with no tasks. -/
def mk_init (dw : DocWindow) (persistent_id : Option String) (windowId : Nat)
    (uiStore : List (String × String)) : WindowState :=
  { documentWindow := dw
    persistent_id := persistent_id
    shown := false
    periodic_queue := ⟨[]⟩
    periodic_set := ⟨[]⟩
    eventLoop := ⟨[]⟩
    windowId := windowId
    uiStore := uiStore }

/-- `Window.queue_task` (lines 249-251): `assert task` then
`self.__periodic_queue.put(task)`. Fails (returns `none`) on a falsy task. -/
def queue_task (w : WindowState) (t : Task) : Option WindowState :=
  if t = 0 then none
  else some { w with periodic_queue := w.periodic_queue.put t }

/-- `Window.add_task` (lines 242-244): `assert task` then
`self.__periodic_set.add_task(key + str(id(self)), task)` — the key is
namespaced with the window's object identity. -/
def add_task (w : WindowState) (key : String) (t : Task) : Option WindowState :=
  if t = 0 then none
  else some { w with periodic_set := w.periodic_set.add_task (key ++ toString w.windowId) t }

/-- `Window.clear_task` (lines 246-247):
`self.__periodic_set.clear_task(key + str(id(self)))`. -/
def clear_task (w : WindowState) (key : String) : WindowState :=
  { w with periodic_set := w.periodic_set.clear_task (key ++ toString w.windowId) }

end WindowState

/-- An observable event of one `periodic` call: a task being executed, or the
event loop being stopped / run. -/
inductive PeriodicEvent
  | runTask (t : Task)
  | loopStop
  | loopRun
deriving Repr, DecidableEq

/-- Result of `Window.periodic`. -/
structure PeriodicResult where
  events : List PeriodicEvent
  state : WindowState
deriving Repr, DecidableEq

namespace WindowState

/-- `Window.periodic` (lines 118-122): `self.__periodic_queue.perform_tasks()`,
then `self.__periodic_set.perform_tasks()`, then `self.__event_loop.stop()` and
`self.__event_loop.run_forever()`. The events record the executed tasks in
order followed by the stop/run of the loop. -/
def periodic (w : WindowState) : PeriodicResult :=
  let qr := w.periodic_queue.perform_tasks
  let sr := w.periodic_set.perform_tasks
  { events := qr.1.map PeriodicEvent.runTask ++ sr.1.map PeriodicEvent.runTask
      ++ [PeriodicEvent.loopStop, PeriodicEvent.loopRun]
    state := { w with periodic_queue := qr.2, periodic_set := sr.2 } }

/-- The tasks a `periodic` call executes from the FIFO queue, in order. -/
def periodicQueueRun (w : WindowState) : List Task :=
  (w.periodic_queue.perform_tasks).1

/-- The tasks a `periodic` call executes from the keyed set. -/
def periodicSetRun (w : WindowState) : List Task :=
  (w.periodic_set.perform_tasks).1

/-- The awaiting phase of `Window.close` (lines 49-57): after stopping and
re-running the loop once, `run_until_complete(asyncio.gather(*all_tasks))` is
called with no timeout, so the call returns iff every outstanding task
finishes (the source comment: "this assumes that all outstanding tasks finish
in a reasonable time (i.e. no infinite loops)"). `none` models a `close` call
that never returns. -/
def closeAwait (w : WindowState) : Option Unit :=
  if w.eventLoop.tasks.all AsyncTask.finishes then some () else none

/-- `Window.show` (lines 216-217): `self.__document_window.show()`. -/
def «show» (w : WindowState) : WindowState :=
  { w with documentWindow := { w.documentWindow with visible := true } }

/-- `Window.request_close` (lines 110-111):
`self.__document_window.request_close()`. -/
def request_close (w : WindowState) : WindowState :=
  { w with documentWindow := { w.documentWindow with closeRequested := true } }

/-- `Window.attach_widget` (lines 128-129): `self.__document_window.attach(widget)`. -/
def attach_widget (w : WindowState) (widget : Nat) : WindowState :=
  { w with documentWindow := { w.documentWindow with attached := some widget } }

/-- `Window.detach_widget` (lines 131-132): `self.__document_window.detach()`. -/
def detach_widget (w : WindowState) : WindowState :=
  { w with documentWindow := { w.documentWindow with attached := none } }

/-- `Window.restore` (lines 231-232):
`self.__document_window.restore(geometry, state)`. -/
def restore (w : WindowState) (geometry state : String) : WindowState :=
  { w with documentWindow := { w.documentWindow with geometry := geometry, winState := state } }

/-- `Window.save` (lines 234-235): `return self.__document_window.save()`. -/
def save (w : WindowState) : String × String :=
  (w.documentWindow.geometry, w.documentWindow.winState)

/-- `Window.title` getter (lines 167-169): `return self.__document_window.title`. -/
def title (w : WindowState) : String :=
  w.documentWindow.title

/-- `Window.title` setter (lines 171-173): `self.__document_window.title = value`. -/
def set_title (w : WindowState) (value : String) : WindowState :=
  { w with documentWindow := { w.documentWindow with title := value } }

end WindowState

/-- Python truthiness of the `persistent_id` argument: `None` and the empty
string are falsy. -/
def persistentIdTruthy : Option String → Bool
  | none => false
  | some s => s ≠ ""

/-- `ui.get_persistent_string(key)` over the modelled store (association
list); absent keys yield the empty string. -/
def getPersistentString (store : List (String × String)) (key : String) : String :=
  ((store.find? (fun p => p.1 = key)).map Prod.snd).getD ""

/-- `ui.set_persistent_string(key, value)` over the modelled store. -/
def setPersistentString (store : List (String × String)) (key value : String) :
    List (String × String) :=
  match store with
  | [] => [(key, value)]
  | (k, v) :: rest =>
      if k = key then (key, value) :: rest
      else (k, v) :: setPersistentString rest key value

namespace WindowState

/-- `Window.__save_bounds` (lines 149-153): only when
`self.__shown and self.__persistent_id` does it call `self.save()` and write
the two persistent strings `pid + "/Geometry"` and `pid + "/State"`. -/
def save_bounds (w : WindowState) : WindowState :=
  match w.persistent_id with
  | none => w
  | some pid =>
      if w.shown && pid ≠ "" then
        let gs := w.save
        let store1 := setPersistentString w.uiStore (pid ++ "/Geometry") gs.1
        let store2 := setPersistentString store1 (pid ++ "/State") gs.2
        { w with uiStore := store2 }
      else w

/-- `Window.size_changed` (lines 158-159): `self.__save_bounds()`; the width
and height arguments are unused. -/
def size_changed (w : WindowState) (_width _height : Int) : WindowState :=
  w.save_bounds

/-- `Window.position_changed` (lines 161-162): `self.__save_bounds()`; the x
and y arguments are unused. -/
def position_changed (w : WindowState) (_x _y : Int) : WindowState :=
  w.save_bounds

/-- `Window.about_to_show` (lines 134-139): when `self.__persistent_id` is
truthy, read the stored geometry and state and `restore` them; in every case
set `self.__shown = True`. -/
def about_to_show (w : WindowState) : WindowState :=
  let w' :=
    match w.persistent_id with
    | none => w
    | some pid =>
        if pid ≠ "" then
          w.restore (getPersistentString w.uiStore (pid ++ "/Geometry"))
            (getPersistentString w.uiStore (pid ++ "/State"))
        else w
  { w' with shown := true }

end WindowState

/-! ### Focus dispatch and standard menu actions -/

/-- A child widget, as seen by the dispatch helpers: `_dispatch_any(method)`
returns whether the widget handled the method, and `_will_dispatch(method)`
whether it would. -/
structure Widget where
  dispatch_any : String → Bool
  will_dispatch : String → Bool

/-- A dock widget: only its `focus_widget` property is relevant here. -/
structure DockWidget where
  focus_widget_prop : Option Widget

/-- The parts of a `Window` that the focus-dispatch helpers read: the document
window's `focus_widget`, the `dock_widgets` list, and the window's own
attributes — `selfHasAttr m` models `hasattr(self, m)` and `selfCall m` the
boolean result of `getattr(self, m)(...)`. -/
structure DispatchWindow where
  documentFocusWidget : Option Widget
  dockWidgets : List DockWidget
  selfHasAttr : String → Bool
  selfCall : String → Bool

/-- The first dock widget with a focused widget, if any (lines 206-209). -/
def firstDockFocus : List DockWidget → Option Widget
  | [] => none
  | d :: rest =>
      match d.focus_widget_prop with
      | some fw => some fw
      | none => firstDockFocus rest

/-- `Window.focus_widget` property (lines 201-210): the document window's
focus widget if any, otherwise the first dock widget's focus widget. -/
def DispatchWindow.focus_widget (w : DispatchWindow) : Option Widget :=
  match w.documentFocusWidget with
  | some fw => some fw
  | none => firstDockFocus w.dockWidgets

/-- One observable step of `_dispatch_any_to_focus_widget`: the focus widget's
`_dispatch_any` being invoked, or the window's own handler being invoked. -/
inductive DispatchEvent
  | widgetDispatch (method : String) (handled : Bool)
  | windowFallback (method : String) (handled : Bool)
deriving Repr, DecidableEq

/-- The fallback half of `_dispatch_any_to_focus_widget` (lines 260-262):
`if hasattr(self, method) and getattr(self, method)(...): return True` —
short-circuiting, so the window handler is only invoked when the attribute
exists. -/
def windowFallbackStep (w : DispatchWindow) (method : String) :
    Bool × List DispatchEvent :=
  if w.selfHasAttr method then
    (w.selfCall method, [DispatchEvent.windowFallback method (w.selfCall method)])
  else (false, [])

/-- `Window._dispatch_any_to_focus_widget` (lines 256-262): try the focus
widget's `_dispatch_any` first; only when there is no focus widget or it does
not handle the method is the window's own handler consulted. Returns the
boolean result and the trace of invocations. -/
def dispatch_any_to_focus_widget (w : DispatchWindow) (method : String) :
    Bool × List DispatchEvent :=
  match w.focus_widget with
  | some fw =>
      if fw.dispatch_any method then
        (true, [DispatchEvent.widgetDispatch method true])
      else
        let fb := windowFallbackStep w method
        (fb.1, DispatchEvent.widgetDispatch method false :: fb.2)
  | none => windowFallbackStep w method

/-- `Window._will_focus_widget_dispatch` (lines 264-270). -/
def will_focus_widget_dispatch (w : DispatchWindow) (method : String) : Bool :=
  match w.focus_widget with
  | some fw => fw.will_dispatch method || w.selfHasAttr method
  | none => w.selfHasAttr method

/-- The standard menu actions whose enablement and activation go through the
focus-dispatch helpers (`_create_menus`, lines 75-104; the Close and Exit
actions are excluded: they are unconditionally enabled and do not dispatch). -/
inductive MenuAction
  | page_setup
  | print
  | undo
  | redo
  | cut
  | copy
  | paste
  | delete
  | select_all
  | minimize
  | zoom
  | bring_to_front
deriving Repr, DecidableEq

/-- The method name each menu action dispatches to the focus widget when
triggered (`_page_setup` .. `_bring_to_front`, lines 294-328). -/
def dispatchedMethod : MenuAction → String
  | .page_setup => "handle_page_setup"
  | .print => "handle_print"
  | .undo => "handle_undo"
  | .redo => "handle_redo"
  | .cut => "handle_cut"
  | .copy => "handle_copy"
  | .paste => "handle_paste"
  | .delete => "handle_delete"
  | .select_all => "handle_select_all"
  | .minimize => "handle_minimize"
  | .zoom => "handle_zoom"
  | .bring_to_front => "bring_to_front"

/-- The method name each menu action's enablement check passes to
`_will_focus_widget_dispatch` in the about-to-show handlers
(`_file_menu_about_to_show`, `_edit_menu_about_to_show`,
`_window_menu_about_to_show`, lines 274-292). -/
def enablementMethod : MenuAction → String
  | .page_setup => "handle_page_setup"
  | .print => "handle_print"
  | .undo => "handle_undo"
  | .redo => "handle_redo"
  | .cut => "handle_cut"
  | .copy => "handle_copy"
  | .paste => "handle_paste"
  | .delete => "handle_delete"
  | .select_all => "handle_select_all"
  | .minimize => "handle_minimize"
  | .zoom => "handle_zoom"
  | .bring_to_front => "handle_bring_to_front"

/-- Triggering a standard menu action: each `_cut`, `_copy`, ... handler is a
single call to `_dispatch_any_to_focus_widget` with its method name
(lines 294-328). -/
def triggerAction (w : DispatchWindow) (a : MenuAction) : Bool × List DispatchEvent :=
  dispatch_any_to_focus_widget w (dispatchedMethod a)

/-- The handler names the claim text assigns to the eight actions
Cut/Copy/Paste/Undo/Redo/Print/Minimize/Zoom — the spec-side naming, to be
compared with `dispatchedMethod` from the source. -/
def specHandlerName : MenuAction → Option String
  | .cut => some "handle_cut"
  | .copy => some "handle_copy"
  | .paste => some "handle_paste"
  | .undo => some "handle_undo"
  | .redo => some "handle_redo"
  | .print => some "handle_print"
  | .minimize => some "handle_minimize"
  | .zoom => some "handle_zoom"
  | _ => none

/-! ### Lifecycle callback wiring -/

/-- The callback slots of the document window that `Window.__init__` assigns
(lines 30-39). -/
inductive Callback
  | on_periodic
  | on_queue_task
  | on_add_task
  | on_clear_task
  | on_about_to_show
  | on_about_to_close
  | on_activation_changed
  | on_size_changed
  | on_position_changed
  | on_refocus_widget
deriving Repr, DecidableEq

/-- The bound methods of `Window` that can be stored in those slots. -/
inductive BoundMethod
  | periodic
  | queue_task
  | add_task
  | clear_task
  | about_to_show
  | about_to_close
  | activation_changed
  | size_changed
  | position_changed
  | refocus_widget
deriving Repr, DecidableEq

/-- The assignment `Window.__init__` performs (lines 30-39):
`self.__document_window.on_periodic = self.periodic`, and so on for each
slot. -/
def initCallbackTarget : Callback → BoundMethod
  | .on_periodic => .periodic
  | .on_queue_task => .queue_task
  | .on_add_task => .add_task
  | .on_clear_task => .clear_task
  | .on_about_to_show => .about_to_show
  | .on_about_to_close => .about_to_close
  | .on_activation_changed => .activation_changed
  | .on_size_changed => .size_changed
  | .on_position_changed => .position_changed
  | .on_refocus_widget => .refocus_widget

/-! ### Concrete fixtures (used by witnesses) -/

/-- A concrete document-window state. -/
def dw0 : DocWindow :=
  { title := "t", visible := false, closeRequested := false
    attached := none, geometry := "g0", winState := "s0" }

/-- A freshly constructed window with no persistent id and object id 1. -/
def w0 : WindowState :=
  WindowState.mk_init dw0 none 1 []

/-- A second freshly constructed window with object id 2. -/
def w0b : WindowState :=
  WindowState.mk_init dw0 none 2 []

/-- A sequence of `queue_task` calls (`queue_task(t1), ..., queue_task(tn)`);
fails if any task is falsy. -/
def queueAll (w : WindowState) (ts : List Task) : Option WindowState :=
  ts.foldlM WindowState.queue_task w

/-- A window whose event loop holds one task that never finishes. -/
def wHang : WindowState :=
  { w0 with eventLoop := ⟨[⟨false⟩]⟩ }

/-- A widget that handles exactly the method `handle_cut`. -/
def fwCut : Widget :=
  ⟨fun m => m == "handle_cut", fun m => m == "handle_cut"⟩

/-- A dispatch window whose focus widget is `fwCut` and which itself handles
nothing. -/
def dwFocus : DispatchWindow :=
  ⟨some fwCut, [], fun _ => false, fun _ => false⟩

/-! ## Helper lemmas -/

theorem updateAssoc_twice (k : String) (t1 t2 : Task) (l : List (String × Task)) :
    updateAssoc k t2 (updateAssoc k t1 l) = updateAssoc k t2 l := by
  induction l with
  | nil => simp [updateAssoc]
  | cons p rest ih =>
      obtain ⟨k1, u⟩ := p
      by_cases h : k1 = k
      · simp [updateAssoc, h]
      · simp [updateAssoc, h, ih]

theorem mem_values_updateAssoc (k : String) (t x : Task) (l : List (String × Task))
    (hx : x ∈ (updateAssoc k t l).map Prod.snd) :
    x = t ∨ x ∈ l.map Prod.snd := by
  induction l with
  | nil => simpa [updateAssoc] using hx
  | cons p rest ih =>
      obtain ⟨k1, u⟩ := p
      by_cases h : k1 = k
      · simp [updateAssoc, h] at hx
        rcases hx with hx | hx
        · exact Or.inl hx
        · exact Or.inr (by simp [hx])
      · simp only [updateAssoc, if_neg h, List.map_cons, List.mem_cons] at hx
        rcases hx with hx | hx
        · exact Or.inr (by simp [hx])
        · rcases ih hx with hx | hx
          · exact Or.inl hx
          · exact Or.inr (by simp only [List.map_cons, List.mem_cons]; exact Or.inr hx)

theorem self_mem_values_updateAssoc (k : String) (t : Task) (l : List (String × Task)) :
    t ∈ (updateAssoc k t l).map Prod.snd := by
  induction l with
  | nil => simp [updateAssoc]
  | cons p rest ih =>
      obtain ⟨k1, u⟩ := p
      by_cases h : k1 = k
      · simp [updateAssoc, h]
      · simp only [updateAssoc, if_neg h, List.map_cons, List.mem_cons]
        exact Or.inr ih

theorem lookup_updateAssoc (k : String) (t : Task) (l : List (String × Task)) :
    TaskSet.lookup ⟨updateAssoc k t l⟩ k = some t := by
  induction l with
  | nil => simp [TaskSet.lookup, updateAssoc, List.find?]
  | cons p rest ih =>
      obtain ⟨k1, u⟩ := p
      by_cases h : k1 = k
      · simp [TaskSet.lookup, updateAssoc, h, List.find?]
      · simpa [TaskSet.lookup, updateAssoc, h, List.find?] using ih

theorem lookup_clear_task (s : TaskSet) (k : String) :
    (s.clear_task k).lookup k = none := by
  obtain ⟨l⟩ := s
  induction l with
  | nil => rfl
  | cons p rest ih =>
      obtain ⟨k1, u⟩ := p
      by_cases h : k1 = k
      · simp [TaskSet.clear_task, TaskSet.lookup, h, List.filter]
      · simp [TaskSet.clear_task, TaskSet.lookup, h, List.filter, List.find?]


theorem queueAll_eq (ts : List Task) (w w' : WindowState)
    (h : queueAll w ts = some w') :
    w' = { w with periodic_queue := ⟨w.periodic_queue.tasks ++ ts⟩ } := by
  induction ts generalizing w with
  | nil =>
      simp only [queueAll, List.foldlM, Option.pure_def, Option.some.injEq] at h
      subst h
      rw [List.append_nil]
  | cons t ts ih =>
      by_cases ht : t = 0
      · simp [queueAll, List.foldlM, WindowState.queue_task, ht] at h
      · simp only [queueAll, List.foldlM, WindowState.queue_task, if_neg ht,
          Option.bind_eq_bind, Option.some_bind] at h
        have := ih _ h
        simp [this, TaskQueue.put, List.append_assoc]

/-! ## Claim theorems -/

/-- Claim C1: for every sequence of `queue_task(t1), ..., queue_task(tn)` calls
made between two periodic ticks (so starting from an empty queue), the next
`periodic` call executes `t1, ..., tn` in exactly the order queued, each
exactly once — the executed queue tasks are exactly the list `ts`, they come
first in the periodic event trace, and the queue is empty afterwards. -/
theorem C1_queue_task_fifo (w : WindowState) (ts : List Task) (w' : WindowState)
    (hq : w.periodic_queue.tasks = []) (hcalls : queueAll w ts = some w') :
    w'.periodicQueueRun = ts ∧
    (w'.periodic).events =
      ts.map PeriodicEvent.runTask
        ++ (w'.periodicSetRun).map PeriodicEvent.runTask
        ++ [PeriodicEvent.loopStop, PeriodicEvent.loopRun] ∧
    (w'.periodic).state.periodic_queue.tasks = [] := by
  obtain rfl := queueAll_eq ts w w' hcalls
  refine ⟨?_, ?_, rfl⟩
  · simp [WindowState.periodicQueueRun, TaskQueue.perform_tasks, hq]
  · simp [WindowState.periodic, WindowState.periodicSetRun, TaskQueue.perform_tasks,
      TaskSet.perform_tasks, hq]

/-- Witness for C1 at `w0` with tasks `[1, 2, 3]`. -/
theorem C1_queue_task_fifo_witness :
    w0.periodic_queue.tasks = [] ∧
    queueAll w0 [1, 2, 3] = some { w0 with periodic_queue := ⟨[1, 2, 3]⟩ } ∧
    ({ w0 with periodic_queue := ⟨[1, 2, 3]⟩ } : WindowState).periodicQueueRun = [1, 2, 3] :=
  ⟨rfl, by decide,
    (C1_queue_task_fifo w0 [1, 2, 3] { w0 with periodic_queue := ⟨[1, 2, 3]⟩ }
      rfl (by decide)).1⟩

/-- Claim C2: calling `add_task(k, t1)` then `add_task(k, t2)` on the same
window before the next tick stores `t2` under the window-namespaced key; the
next `periodic` executes `t2` and never executes `t1` (given that `t1` is a
distinct task not also stored under another key). -/
theorem C2_add_task_replace_before_run (w : WindowState) (k : String) (t1 t2 : Task)
    (hne : t1 ≠ t2) (hnotin : t1 ∉ w.periodic_set.tasks.map Prod.snd)
    (w1 w2 : WindowState)
    (h1 : w.add_task k t1 = some w1) (h2 : w1.add_task k t2 = some w2) :
    w2.periodic_set.lookup (k ++ toString w.windowId) = some t2 ∧
    t2 ∈ w2.periodicSetRun ∧
    t1 ∉ w2.periodicSetRun := by
  by_cases ht1 : t1 = 0
  · simp [WindowState.add_task, ht1] at h1
  by_cases ht2 : t2 = 0
  · simp [WindowState.add_task, ht2] at h2
  simp only [WindowState.add_task, if_neg ht1, Option.some.injEq] at h1
  subst h1
  simp only [WindowState.add_task, if_neg ht2, Option.some.injEq] at h2
  subst h2
  simp only [WindowState.periodicSetRun, TaskSet.perform_tasks, TaskSet.add_task]
  refine ⟨?_, ?_, ?_⟩
  · exact updateAssoc_twice (k ++ toString w.windowId) t1 t2 w.periodic_set.tasks ▸
      lookup_updateAssoc (k ++ toString w.windowId) t2 w.periodic_set.tasks
  · exact updateAssoc_twice (k ++ toString w.windowId) t1 t2 w.periodic_set.tasks ▸
      self_mem_values_updateAssoc (k ++ toString w.windowId) t2 w.periodic_set.tasks
  · rw [updateAssoc_twice]
    intro hmem
    rcases mem_values_updateAssoc (k ++ toString w.windowId) t2 t1
        w.periodic_set.tasks hmem with h | h
    · exact hne h
    · exact hnotin h

/-- Witness for C2 at `w0` with key `"a"` and tasks `5`, `7`. -/
theorem C2_add_task_replace_before_run_witness :
    ((5 : Task) ≠ 7 ∧ (5 : Task) ∉ w0.periodic_set.tasks.map Prod.snd ∧
      w0.add_task "a" 5 = some { w0 with periodic_set := ⟨[("a1", 5)]⟩ } ∧
      WindowState.add_task { w0 with periodic_set := ⟨[("a1", 5)]⟩ } "a" 7 =
        some { w0 with periodic_set := ⟨[("a1", 7)]⟩ }) ∧
    ({ w0 with periodic_set := ⟨[("a1", 7)]⟩ } : WindowState).periodic_set.lookup
      ("a" ++ toString w0.windowId) = some 7 ∧
    (7 : Task) ∈ ({ w0 with periodic_set := ⟨[("a1", 7)]⟩ } : WindowState).periodicSetRun ∧
    (5 : Task) ∉ ({ w0 with periodic_set := ⟨[("a1", 7)]⟩ } : WindowState).periodicSetRun :=
  ⟨⟨by decide, by decide, by decide, by decide⟩,
    C2_add_task_replace_before_run w0 "a" 5 7 (by decide) (by decide)
      { w0 with periodic_set := ⟨[("a1", 5)]⟩ }
      { w0 with periodic_set := ⟨[("a1", 7)]⟩ } (by decide) (by decide)⟩

/-- Claim C3: `periodic` drains the FIFO queue, then the keyed set, then stops
and runs the event loop once; afterwards both containers are empty, so no task
pending before the call is still held. -/
theorem C3_periodic_order_and_drain (w : WindowState) :
    (w.periodic).events =
      (w.periodicQueueRun).map PeriodicEvent.runTask
        ++ (w.periodicSetRun).map PeriodicEvent.runTask
        ++ [PeriodicEvent.loopStop, PeriodicEvent.loopRun] ∧
    w.periodicQueueRun = w.periodic_queue.tasks ∧
    w.periodicSetRun = w.periodic_set.tasks.map Prod.snd ∧
    (w.periodic).state.periodic_queue = ⟨[]⟩ ∧
    (w.periodic).state.periodic_set = ⟨[]⟩ ∧
    (w.periodic).state.eventLoop = w.eventLoop :=
  ⟨rfl, rfl, rfl, rfl, rfl, rfl⟩

/-- Counterexample to claim C4 as stated: with one outstanding event-loop task
that never finishes, the awaiting phase of `close` never returns — `close` does
not terminate after a bounded grace period. -/
theorem C4_close_counterexample : wHang.closeAwait = none := rfl

/-- Claim C4 (amended): at shutdown, `close` awaits all outstanding event-loop
tasks with no time bound: its awaiting phase returns exactly when every
outstanding task finishes, and there is no bounded grace period after which a
non-finishing task is abandoned. -/
theorem C4_close_awaits_unbounded (w : WindowState) :
    w.closeAwait = some () ↔ w.eventLoop.tasks.all AsyncTask.finishes = true := by
  unfold WindowState.closeAwait
  split <;> simp_all

theorem dispatch_widget_first (w : DispatchWindow) (fw : Widget) (m : String)
    (hfw : w.focus_widget = some fw) :
    (fw.dispatch_any m = true →
      dispatch_any_to_focus_widget w m = (true, [DispatchEvent.widgetDispatch m true])) ∧
    (fw.dispatch_any m = false →
      dispatch_any_to_focus_widget w m =
        ((windowFallbackStep w m).1,
          DispatchEvent.widgetDispatch m false :: (windowFallbackStep w m).2)) := by
  constructor <;> intro h <;> simp [dispatch_any_to_focus_widget, hfw, h]

/-- Claim C5: each of the eight standard actions Cut, Copy, Paste, Undo, Redo,
Print, Minimize, Zoom dispatches exactly the claimed handler name; when a focus
widget exists and handles that method, triggering the action invokes only the
focus widget (result true, no window fallback in the trace); the window's own
fallback handler is consulted only when the focus widget does not handle it. -/
theorem C5_standard_actions_focus_dispatch (w : DispatchWindow) (a : MenuAction)
    (m : String) (hs : specHandlerName a = some m)
    (fw : Widget) (hfw : w.focus_widget = some fw) :
    dispatchedMethod a = m ∧
    (fw.dispatch_any m = true →
      triggerAction w a = (true, [DispatchEvent.widgetDispatch m true])) ∧
    (fw.dispatch_any m = false →
      triggerAction w a =
        ((windowFallbackStep w m).1,
          DispatchEvent.widgetDispatch m false :: (windowFallbackStep w m).2)) := by
  have hdm : dispatchedMethod a = m := by
    cases a <;> simp_all [specHandlerName, dispatchedMethod]
  have key := dispatch_widget_first w fw m hfw
  refine ⟨hdm, ?_, ?_⟩
  · intro h
    simp only [triggerAction, hdm]
    exact key.1 h
  · intro h
    simp only [triggerAction, hdm]
    exact key.2 h

/-- Witness for C5: a window whose focus widget handles `handle_cut`. -/
theorem C5_standard_actions_focus_dispatch_witness :
    (specHandlerName MenuAction.cut = some "handle_cut" ∧
      dwFocus.focus_widget = some fwCut) ∧
    dispatchedMethod MenuAction.cut = "handle_cut" ∧
    (fwCut.dispatch_any "handle_cut" = true →
      triggerAction dwFocus MenuAction.cut =
        (true, [DispatchEvent.widgetDispatch "handle_cut" true])) ∧
    (fwCut.dispatch_any "handle_cut" = false →
      triggerAction dwFocus MenuAction.cut =
        ((windowFallbackStep dwFocus "handle_cut").1,
          DispatchEvent.widgetDispatch "handle_cut" false ::
            (windowFallbackStep dwFocus "handle_cut").2)) :=
  ⟨⟨rfl, rfl⟩,
    C5_standard_actions_focus_dispatch dwFocus MenuAction.cut "handle_cut" rfl fwCut rfl⟩

/-- Claim C6: `Window.__init__` forwards every lifecycle callback of the
wrapped document window to the corresponding `Window` method. -/
theorem C6_lifecycle_callbacks_forwarded :
    initCallbackTarget Callback.on_periodic = BoundMethod.periodic ∧
    initCallbackTarget Callback.on_about_to_show = BoundMethod.about_to_show ∧
    initCallbackTarget Callback.on_about_to_close = BoundMethod.about_to_close ∧
    initCallbackTarget Callback.on_activation_changed = BoundMethod.activation_changed ∧
    initCallbackTarget Callback.on_size_changed = BoundMethod.size_changed ∧
    initCallbackTarget Callback.on_position_changed = BoundMethod.position_changed ∧
    initCallbackTarget Callback.on_queue_task = BoundMethod.queue_task ∧
    initCallbackTarget Callback.on_add_task = BoundMethod.add_task ∧
    initCallbackTarget Callback.on_clear_task = BoundMethod.clear_task ∧
    initCallbackTarget Callback.on_refocus_widget = BoundMethod.refocus_widget := by
  decide

/-- Claim C7: the pure delegation methods `show`, `request_close`,
`attach_widget`, `detach_widget`, `restore`, the title setter — change nothing
outside the wrapped document window (resetting the `documentWindow` field
recovers the original state, so the periodic queue, the keyed set, the shown
flag and the event loop are untouched); and the reads `save` and the title
getter depend only on the document window (they are unchanged under arbitrary
replacement of the queue, set, shown flag and event loop). -/
theorem C7_delegations_touch_only_document_window (w : WindowState) (widget : Nat)
    (g s v : String) (q : TaskQueue) (ts : TaskSet) (b : Bool) (el : EventLoop) :
    { WindowState.«show» w with documentWindow := w.documentWindow } = w ∧
    { w.request_close with documentWindow := w.documentWindow } = w ∧
    { w.attach_widget widget with documentWindow := w.documentWindow } = w ∧
    { w.detach_widget with documentWindow := w.documentWindow } = w ∧
    { w.restore g s with documentWindow := w.documentWindow } = w ∧
    { w.set_title v with documentWindow := w.documentWindow } = w ∧
    ({ w with periodic_queue := q, periodic_set := ts, shown := b, eventLoop := el } : WindowState).save = w.save ∧
    ({ w with periodic_queue := q, periodic_set := ts, shown := b, eventLoop := el } : WindowState).title = w.title :=
  ⟨rfl, rfl, rfl, rfl, rfl, rfl, rfl, rfl⟩

/-- Claim C8: task keys are namespaced per window instance: after
`w1.add_task(k, t1)` and `w2.add_task(k, t2)` each window's keyed set holds its
own task under its own `id`-suffixed key (neither replaces the other), and
`clear_task(k)` on the first window empties only that window's binding while
the second window's set is exactly what its own `add_task` produced. -/
theorem C8_task_keys_namespaced_per_window (w1 w2 : WindowState) (k : String)
    (t1 t2 : Task) (w1' w2' : WindowState)
    (h1 : w1.add_task k t1 = some w1') (h2 : w2.add_task k t2 = some w2') :
    w1'.periodic_set.lookup (k ++ toString w1.windowId) = some t1 ∧
    w2'.periodic_set.lookup (k ++ toString w2.windowId) = some t2 ∧
    (w1'.clear_task k).periodic_set.lookup (k ++ toString w1.windowId) = none ∧
    w2'.periodic_set = w2.periodic_set.add_task (k ++ toString w2.windowId) t2 := by
  by_cases ht1 : t1 = 0
  · simp [WindowState.add_task, ht1] at h1
  by_cases ht2 : t2 = 0
  · simp [WindowState.add_task, ht2] at h2
  simp only [WindowState.add_task, if_neg ht1, Option.some.injEq] at h1
  subst h1
  simp only [WindowState.add_task, if_neg ht2, Option.some.injEq] at h2
  subst h2
  refine ⟨?_, ?_, ?_, rfl⟩
  · exact lookup_updateAssoc (k ++ toString w1.windowId) t1 w1.periodic_set.tasks
  · exact lookup_updateAssoc (k ++ toString w2.windowId) t2 w2.periodic_set.tasks
  · exact lookup_clear_task _ (k ++ toString w1.windowId)

/-- Witness for C8: windows `w0` (id 1) and `w0b` (id 2), key `"a"`, tasks `5`
and `7`. -/
theorem C8_task_keys_namespaced_per_window_witness :
    (w0.add_task "a" 5 = some { w0 with periodic_set := ⟨[("a1", 5)]⟩ } ∧
      w0b.add_task "a" 7 = some { w0b with periodic_set := ⟨[("a2", 7)]⟩ }) ∧
    ({ w0 with periodic_set := ⟨[("a1", 5)]⟩ } : WindowState).periodic_set.lookup
      ("a" ++ toString w0.windowId) = some 5 ∧
    ({ w0b with periodic_set := ⟨[("a2", 7)]⟩ } : WindowState).periodic_set.lookup
      ("a" ++ toString w0b.windowId) = some 7 ∧
    (WindowState.clear_task { w0 with periodic_set := ⟨[("a1", 5)]⟩ } "a").periodic_set.lookup
      ("a" ++ toString w0.windowId) = none ∧
    ({ w0b with periodic_set := ⟨[("a2", 7)]⟩ } : WindowState).periodic_set =
      w0b.periodic_set.add_task ("a" ++ toString w0b.windowId) 7 :=
  ⟨⟨by decide, by decide⟩,
    C8_task_keys_namespaced_per_window w0 w0b "a" 5 7
      { w0 with periodic_set := ⟨[("a1", 5)]⟩ }
      { w0b with periodic_set := ⟨[("a2", 7)]⟩ } (by decide) (by decide)⟩

/-- Claim C9: resize and move events never write persistent storage before the
window has been shown or when no persistent id was supplied: under either
condition `size_changed` and `position_changed` leave the whole state (hence
the store) unchanged; moreover a freshly constructed window has `shown` false
and `about_to_show` is what sets it true. -/
theorem C9_no_persist_before_shown (w : WindowState) (width height x y : Int)
    (dw : DocWindow) (pid : Option String) (i : Nat) (st : List (String × String))
    (h : w.shown = false ∨ w.persistent_id = none) :
    w.size_changed width height = w ∧
    w.position_changed x y = w ∧
    (WindowState.mk_init dw pid i st).shown = false ∧
    (w.about_to_show).shown = true := by
  refine ⟨?_, ?_, rfl, rfl⟩ <;>
  · simp only [WindowState.size_changed, WindowState.position_changed,
      WindowState.save_bounds]
    rcases h with h | h
    · cases hp : w.persistent_id <;> simp [hp, h]
    · simp [h]

/-- Witness for C9 at the fresh window `w0` (not yet shown, no persistent id). -/
theorem C9_no_persist_before_shown_witness :
    (w0.shown = false ∨ w0.persistent_id = none) ∧
    w0.size_changed 10 20 = w0 ∧
    w0.position_changed 3 4 = w0 ∧
    (WindowState.mk_init dw0 none 1 []).shown = false ∧
    (w0.about_to_show).shown = true :=
  ⟨Or.inl rfl,
    (C9_no_persist_before_shown w0 10 20 3 4 dw0 none 1 [] (Or.inl rfl)).1,
    (C9_no_persist_before_shown w0 10 20 3 4 dw0 none 1 [] (Or.inl rfl)).2.1,
    (C9_no_persist_before_shown w0 10 20 3 4 dw0 none 1 [] (Or.inl rfl)).2.2.1,
    (C9_no_persist_before_shown w0 10 20 3 4 dw0 none 1 [] (Or.inl rfl)).2.2.2⟩

/-- Claim C10 checked against the code: for eleven of the twelve standard menu
actions the enablement check and the triggered dispatch use the same method
name, but for Bring to Front the about-to-show handler enables the action based
on `handle_bring_to_front` while `_bring_to_front` dispatches `bring_to_front`
— the names differ, so the enablement tests a method that is never the one
dispatched. -/
theorem C10_enablement_vs_dispatch_names :
    enablementMethod MenuAction.bring_to_front = "handle_bring_to_front" ∧
    dispatchedMethod MenuAction.bring_to_front = "bring_to_front" ∧
    enablementMethod MenuAction.bring_to_front ≠ dispatchedMethod MenuAction.bring_to_front ∧
    enablementMethod MenuAction.page_setup = dispatchedMethod MenuAction.page_setup ∧
    enablementMethod MenuAction.print = dispatchedMethod MenuAction.print ∧
    enablementMethod MenuAction.undo = dispatchedMethod MenuAction.undo ∧
    enablementMethod MenuAction.redo = dispatchedMethod MenuAction.redo ∧
    enablementMethod MenuAction.cut = dispatchedMethod MenuAction.cut ∧
    enablementMethod MenuAction.copy = dispatchedMethod MenuAction.copy ∧
    enablementMethod MenuAction.paste = dispatchedMethod MenuAction.paste ∧
    enablementMethod MenuAction.delete = dispatchedMethod MenuAction.delete ∧
    enablementMethod MenuAction.select_all = dispatchedMethod MenuAction.select_all ∧
    enablementMethod MenuAction.minimize = dispatchedMethod MenuAction.minimize ∧
    enablementMethod MenuAction.zoom = dispatchedMethod MenuAction.zoom := by
  refine ⟨rfl, rfl, by decide, rfl, rfl, rfl, rfl, rfl, rfl, rfl, rfl, rfl, rfl, rfl⟩

end NionUI
